import Mathlib

/-!
# Wwise identifier table of `Wwise_IDs.h`

`Assets/StreamingAssets/Audio/GeneratedSoundBanks/Wwise_IDs.h` is a generated
header that binds symbolic names to numeric identifiers, grouped in nested
namespaces under `AK`.  Every constant of the header is a definition here,
under the namespace it has in the header, with the integer literal as it is
written there.  `AK.table` lists the 49 bindings in the order of the header,
each one with its category and its name.
-/

set_option maxRecDepth 100000
set_option maxHeartbeats 4000000

namespace AK

/-- Modelled from the spec: `AkUniqueID` is declared in
`AK/SoundEngine/Common/AkTypes.h`, which is not among the sources; the spec
describes the identifiers as 32-bit unsigned integers.  Storing the integer
`v` in such a variable keeps `v` modulo `2^32`. -/
def toAkUniqueID (v : Nat) : Nat := v % 2 ^ 32

namespace EVENTS
def CAREXPLOSION : Nat := 144991338
def ENGINEOFF : Nat := 2388455330
def ENGINEON : Nat := 2439330724
def HOGHORN : Nat := 3567623486
def HOGIMPACT : Nat := 2587421243
def LEVELMUSICOFF : Nat := 531512037
def LEVELMUSICON : Nat := 1021065561
def MENUMUSICOFF : Nat := 2510477776
def MENUMUSICON : Nat := 878061882
def MIDROUNDOFF : Nat := 1869858978
def MIDROUNDON : Nat := 668901028
def PAUSEOFF : Nat := 3921005316
def PAUSEON : Nat := 80751710
def TIRESCREECHOFF : Nat := 3010988261
def TIRESCREECHON : Nat := 3670274905
def UICANCEL : Nat := 1933252553
def UICLICK : Nat := 3164408517
def UICONFIRM : Nat := 685626117
end EVENTS

namespace SWITCHES
namespace HOG_IMPACT
def GROUP : Nat := 1449613434
namespace SWITCH
def HIGH : Nat := 3550808449
def LOW : Nat := 545371365
def MEDIUM : Nat := 2849147824
end SWITCH
end HOG_IMPACT
end SWITCHES

namespace GAME_PARAMETERS
def MASTERVOLUME : Nat := 2918011349
def MUSICVOLUME : Nat := 2346531308
def RPM : Nat := 796049864
def SFXVOLUME : Nat := 988953028
def SS_AIR_FEAR : Nat := 1351367891
def SS_AIR_FREEFALL : Nat := 3002758120
def SS_AIR_FURY : Nat := 1029930033
def SS_AIR_MONTH : Nat := 2648548617
def SS_AIR_PRESENCE : Nat := 3847924954
def SS_AIR_RPM : Nat := 822163944
def SS_AIR_SIZE : Nat := 3074696722
def SS_AIR_STORM : Nat := 3715662592
def SS_AIR_TIMEOFDAY : Nat := 3203397129
def SS_AIR_TURBULENCE : Nat := 4160247818
def VELOCITY : Nat := 3519441192
end GAME_PARAMETERS

namespace BANKS
def INIT : Nat := 1355168291
def MAIN : Nat := 3161908922
def MUSIC : Nat := 3991942870
end BANKS

namespace BUSSES
def GUI : Nat := 915214414
def MASTER_AUDIO_BUS : Nat := 3803692087
def MUSIC : Nat := 3991942870
def SFX : Nat := 393239870
def WORLD : Nat := 2609808943
end BUSSES

namespace AUX_BUSSES
def GUI_VERB : Nat := 1431427514
def WORLD_VERB : Nat := 2667095749
end AUX_BUSSES

namespace AUDIO_DEVICES
def NO_OUTPUT : Nat := 2317455096
def SYSTEM : Nat := 3859886410
end AUDIO_DEVICES

/-- The categories of the header: one for each namespace that holds
constants.  `SWITCHES` holds the switch groups (the header has one,
`HOG_IMPACT`, whose id is the constant `SWITCHES::HOG_IMPACT::GROUP`), and
`HOG_IMPACT_SWITCH` holds the values of `SWITCHES::HOG_IMPACT::SWITCH`. -/
inductive Category where
  | EVENTS
  | SWITCHES
  | HOG_IMPACT_SWITCH
  | GAME_PARAMETERS
  | BANKS
  | BUSSES
  | AUX_BUSSES
  | AUDIO_DEVICES
  deriving DecidableEq, Repr

/-- One binding of the header: the category it is declared in, its symbolic
name and the integer literal bound to it. -/
structure Entry where
  category : Category
  name : String
  value : Nat
  deriving DecidableEq, Repr

/-- The bindings of the header, in the order they are written.  The switch
group `HOG_IMPACT` is entered under its own name with the value of its
`GROUP` constant. -/
def table : List Entry :=
  [ ⟨.EVENTS, "CAREXPLOSION", EVENTS.CAREXPLOSION⟩,
    ⟨.EVENTS, "ENGINEOFF", EVENTS.ENGINEOFF⟩,
    ⟨.EVENTS, "ENGINEON", EVENTS.ENGINEON⟩,
    ⟨.EVENTS, "HOGHORN", EVENTS.HOGHORN⟩,
    ⟨.EVENTS, "HOGIMPACT", EVENTS.HOGIMPACT⟩,
    ⟨.EVENTS, "LEVELMUSICOFF", EVENTS.LEVELMUSICOFF⟩,
    ⟨.EVENTS, "LEVELMUSICON", EVENTS.LEVELMUSICON⟩,
    ⟨.EVENTS, "MENUMUSICOFF", EVENTS.MENUMUSICOFF⟩,
    ⟨.EVENTS, "MENUMUSICON", EVENTS.MENUMUSICON⟩,
    ⟨.EVENTS, "MIDROUNDOFF", EVENTS.MIDROUNDOFF⟩,
    ⟨.EVENTS, "MIDROUNDON", EVENTS.MIDROUNDON⟩,
    ⟨.EVENTS, "PAUSEOFF", EVENTS.PAUSEOFF⟩,
    ⟨.EVENTS, "PAUSEON", EVENTS.PAUSEON⟩,
    ⟨.EVENTS, "TIRESCREECHOFF", EVENTS.TIRESCREECHOFF⟩,
    ⟨.EVENTS, "TIRESCREECHON", EVENTS.TIRESCREECHON⟩,
    ⟨.EVENTS, "UICANCEL", EVENTS.UICANCEL⟩,
    ⟨.EVENTS, "UICLICK", EVENTS.UICLICK⟩,
    ⟨.EVENTS, "UICONFIRM", EVENTS.UICONFIRM⟩,
    ⟨.SWITCHES, "HOG_IMPACT", SWITCHES.HOG_IMPACT.GROUP⟩,
    ⟨.HOG_IMPACT_SWITCH, "HIGH", SWITCHES.HOG_IMPACT.SWITCH.HIGH⟩,
    ⟨.HOG_IMPACT_SWITCH, "LOW", SWITCHES.HOG_IMPACT.SWITCH.LOW⟩,
    ⟨.HOG_IMPACT_SWITCH, "MEDIUM", SWITCHES.HOG_IMPACT.SWITCH.MEDIUM⟩,
    ⟨.GAME_PARAMETERS, "MASTERVOLUME", GAME_PARAMETERS.MASTERVOLUME⟩,
    ⟨.GAME_PARAMETERS, "MUSICVOLUME", GAME_PARAMETERS.MUSICVOLUME⟩,
    ⟨.GAME_PARAMETERS, "RPM", GAME_PARAMETERS.RPM⟩,
    ⟨.GAME_PARAMETERS, "SFXVOLUME", GAME_PARAMETERS.SFXVOLUME⟩,
    ⟨.GAME_PARAMETERS, "SS_AIR_FEAR", GAME_PARAMETERS.SS_AIR_FEAR⟩,
    ⟨.GAME_PARAMETERS, "SS_AIR_FREEFALL", GAME_PARAMETERS.SS_AIR_FREEFALL⟩,
    ⟨.GAME_PARAMETERS, "SS_AIR_FURY", GAME_PARAMETERS.SS_AIR_FURY⟩,
    ⟨.GAME_PARAMETERS, "SS_AIR_MONTH", GAME_PARAMETERS.SS_AIR_MONTH⟩,
    ⟨.GAME_PARAMETERS, "SS_AIR_PRESENCE", GAME_PARAMETERS.SS_AIR_PRESENCE⟩,
    ⟨.GAME_PARAMETERS, "SS_AIR_RPM", GAME_PARAMETERS.SS_AIR_RPM⟩,
    ⟨.GAME_PARAMETERS, "SS_AIR_SIZE", GAME_PARAMETERS.SS_AIR_SIZE⟩,
    ⟨.GAME_PARAMETERS, "SS_AIR_STORM", GAME_PARAMETERS.SS_AIR_STORM⟩,
    ⟨.GAME_PARAMETERS, "SS_AIR_TIMEOFDAY", GAME_PARAMETERS.SS_AIR_TIMEOFDAY⟩,
    ⟨.GAME_PARAMETERS, "SS_AIR_TURBULENCE", GAME_PARAMETERS.SS_AIR_TURBULENCE⟩,
    ⟨.GAME_PARAMETERS, "VELOCITY", GAME_PARAMETERS.VELOCITY⟩,
    ⟨.BANKS, "INIT", BANKS.INIT⟩,
    ⟨.BANKS, "MAIN", BANKS.MAIN⟩,
    ⟨.BANKS, "MUSIC", BANKS.MUSIC⟩,
    ⟨.BUSSES, "GUI", BUSSES.GUI⟩,
    ⟨.BUSSES, "MASTER_AUDIO_BUS", BUSSES.MASTER_AUDIO_BUS⟩,
    ⟨.BUSSES, "MUSIC", BUSSES.MUSIC⟩,
    ⟨.BUSSES, "SFX", BUSSES.SFX⟩,
    ⟨.BUSSES, "WORLD", BUSSES.WORLD⟩,
    ⟨.AUX_BUSSES, "GUI_VERB", AUX_BUSSES.GUI_VERB⟩,
    ⟨.AUX_BUSSES, "WORLD_VERB", AUX_BUSSES.WORLD_VERB⟩,
    ⟨.AUDIO_DEVICES, "NO_OUTPUT", AUDIO_DEVICES.NO_OUTPUT⟩,
    ⟨.AUDIO_DEVICES, "SYSTEM", AUDIO_DEVICES.SYSTEM⟩ ]

/-- The bindings of one category, in the order of the header. -/
def inCategory (c : Category) : List Entry :=
  table.filter (fun e => decide (e.category = c))

/-- The names bound in one category. -/
def names (c : Category) : List String :=
  (inCategory c).map Entry.name

/-- The values bound in one category. -/
def values (c : Category) : List Nat :=
  (inCategory c).map Entry.value

/-- All eight categories. -/
def categories : List Category :=
  [.EVENTS, .SWITCHES, .HOG_IMPACT_SWITCH, .GAME_PARAMETERS, .BANKS, .BUSSES,
    .AUX_BUSSES, .AUDIO_DEVICES]

/-- Modelled from the spec: `AK_INVALID_UNIQUE_ID`, the id the audio runtime
reserves for "no object", is declared in `AK/SoundEngine/Common/AkTypes.h`,
which is not among the sources; its value is 0. -/
def AK_INVALID_UNIQUE_ID : Nat := 0

/-- The bytes of a string (its UTF-8 encoding), as numbers below 256. -/
def bytes (s : String) : List Nat :=
  s.data.flatMap (fun c => (String.utf8EncodeChar c).map UInt8.toNat)

/-- The 32-bit FNV-1 hash as the specification states it: start from
2166136261 and, for each byte in order, multiply by 16777619 modulo `2^32`
and xor the byte in. -/
def fnv1 (s : String) : Nat :=
  (bytes s).foldl (fun h b => Nat.xor ((h * 16777619) % 2 ^ 32) b) 2166136261

/-- ASCII lower-casing: `A`..`Z` become `a`..`z`, every other character is
kept. -/
def asciiLower (s : String) : String :=
  String.mk (s.data.map (fun c => if 'A' ≤ c ∧ c ≤ 'Z' then Char.ofNat (c.toNat + 32) else c))

/-- Underscores replaced by spaces. -/
def underscoresToSpaces (s : String) : String :=
  String.mk (s.data.map (fun c => if c = '_' then ' ' else c))

/-- What is left of `n` in front of the suffix `suffix`, when `n` ends with
it. -/
def stem (suffix n : String) : Option String :=
  if n.data.drop (n.data.length - suffix.data.length) = suffix.data then
    some (String.mk (n.data.take (n.data.length - suffix.data.length)))
  else none

/-- The binding `BANKS::MUSIC` of the header. -/
def banksMusic : Entry := ⟨.BANKS, "MUSIC", BANKS.MUSIC⟩

/-- The binding `BUSSES::MUSIC` of the header. -/
def bussesMusic : Entry := ⟨.BUSSES, "MUSIC", BUSSES.MUSIC⟩

/-- The binding `BUSSES::MASTER_AUDIO_BUS` of the header. -/
def masterAudioBus : Entry := ⟨.BUSSES, "MASTER_AUDIO_BUS", BUSSES.MASTER_AUDIO_BUS⟩

/-- The stems of the start/stop event pairs. -/
def pairStems : List String :=
  ["ENGINE", "LEVELMUSIC", "MENUMUSIC", "MIDROUND", "PAUSE", "TIRESCREECH"]

/-! ## Helper lemmas -/

theorem list_append_eq_iff {α : Type} (xs s n : List α) :
    xs ++ s = n ↔
      n.drop (n.length - s.length) = s ∧ xs = n.take (n.length - s.length) := by
  constructor
  · rintro rfl
    simp
  · rintro ⟨h₁, h₂⟩
    rw [h₂]
    nth_rewrite 2 [← h₁]
    exact List.take_append_drop _ n

theorem append_eq_iff_stem (X s n : String) : X ++ s = n ↔ stem s n = some X := by
  unfold stem
  rw [String.ext_iff, String.data_append, list_append_eq_iff]
  constructor
  · rintro ⟨h₁, h₂⟩
    rw [if_pos h₁, ← h₂]
  · intro h
    split at h
    · rename_i h₁
      refine ⟨h₁, ?_⟩
      have := congrArg String.data (Option.some.inj h)
      exact this.symm
    · exact absurd h (by simp)

theorem append_mem_iff (X s : String) (L : List String) :
    X ++ s ∈ L ↔ X ∈ L.filterMap (stem s) := by
  rw [List.mem_filterMap]
  constructor
  · intro h
    exact ⟨X ++ s, h, (append_eq_iff_stem X s _).1 rfl⟩
  · rintro ⟨n, hn, h⟩
    rw [(append_eq_iff_stem X s n).2 h]
    exact hn

theorem on_stems :
    (names .EVENTS).filterMap (stem "ON") = "CAREXPLOSI" :: pairStems := by
  decide

theorem off_stems : (names .EVENTS).filterMap (stem "OFF") = pairStems := by
  decide

theorem values_ne_of_names_ne :
    ∀ e₁ ∈ table, ∀ e₂ ∈ table, e₁.category = e₂.category → e₁.name ≠ e₂.name →
      e₁.value ≠ e₂.value := by
  decide

theorem mem_inCategory {c : Category} {e : Entry} :
    e ∈ inCategory c ↔ e ∈ table ∧ e.category = c := by
  simp [inCategory, List.mem_filter]

/-! ## The claims -/

/-- C1: within each category (EVENTS, GAME_PARAMETERS, BANKS, BUSSES,
AUX_BUSSES, AUDIO_DEVICES, the switch groups under SWITCHES, the SWITCH
values of HOG_IMPACT) the values are pairwise distinct: the list of values of
the category has no duplicate, and two entries of the category with different
names have different values. -/
theorem C1_values_distinct_within_category (c : Category) :
    (values c).Nodup ∧
      ∀ e₁ ∈ inCategory c, ∀ e₂ ∈ inCategory c, e₁.name ≠ e₂.name → e₁.value ≠ e₂.value := by
  refine ⟨?_, ?_⟩
  · cases c <;> decide
  · intro e₁ h₁ e₂ h₂ hn
    obtain ⟨m₁, c₁⟩ := mem_inCategory.1 h₁
    obtain ⟨m₂, c₂⟩ := mem_inCategory.1 h₂
    exact values_ne_of_names_ne e₁ m₁ e₂ m₂ (c₁.trans c₂.symm) hn

/-- C2: the table has 49 entries (18 events, 1 switch group and its 3 switch
values, 15 game parameters, 3 banks, 5 busses, 2 auxiliary busses, 2 audio
devices) and the value `v` of every one of them satisfies `0 ≤ v < 2^32`, so
that storing it in a 32-bit unsigned `AkUniqueID` does not change it. -/
theorem C2_values_fit_in_32_bits :
    table.length = 49 ∧
      (categories.map fun c => (inCategory c).length) = [18, 1, 3, 15, 3, 5, 2, 2] ∧
      ∀ e ∈ table, 0 ≤ e.value ∧ e.value < 2 ^ 32 ∧ toAkUniqueID e.value = e.value := by
  decide

/-- C3: within each category the symbolic names are pairwise distinct: no
name is bound twice in the same category. -/
theorem C3_names_distinct_within_category (c : Category) : (names c).Nodup := by
  cases c <;> decide

/-- C4: a value is reused across categories: `BANKS::MUSIC` and
`BUSSES::MUSIC` are entries of the categories BANKS and BUSSES and both are
3991942870, while the values of BANKS and the values of BUSSES are each
pairwise distinct. -/
theorem C4_bank_and_bus_share_music_value :
    banksMusic ∈ inCategory .BANKS ∧ bussesMusic ∈ inCategory .BUSSES ∧
      BANKS.MUSIC = 3991942870 ∧ BUSSES.MUSIC = 3991942870 ∧
      banksMusic.value = bussesMusic.value ∧
      (values .BANKS).Nodup ∧ (values .BUSSES).Nodup := by
  decide

/-- C6: every value is the 32-bit FNV-1 hash of its entry's name: each entry
other than `BUSSES::MASTER_AUDIO_BUS` has the hash of its ASCII-lowercased
name (the switch group under its name `HOG_IMPACT`), and
`BUSSES::MASTER_AUDIO_BUS` has the hash of "master audio bus", which is
3803692087 and is its lowercased name with spaces for the underscores. -/
theorem C6_values_are_fnv1_of_names :
    (∀ e ∈ table, e ≠ masterAudioBus → e.value = fnv1 (asciiLower e.name)) ∧
      masterAudioBus ∈ table ∧
      BUSSES.MASTER_AUDIO_BUS = fnv1 "master audio bus" ∧
      fnv1 "master audio bus" = 3803692087 ∧
      underscoresToSpaces (asciiLower masterAudioBus.name) = "master audio bus" ∧
      fnv1 "rpm" = 796049864 ∧ fnv1 "init" = 1355168291 ∧
      fnv1 "gui_verb" = 1431427514 ∧
      SWITCHES.HOG_IMPACT.GROUP = fnv1 "hog_impact" := by
  decide

/-- C7: over the whole table of 49 entries, the only two distinct entries
with the same value are `BANKS::MUSIC` and `BUSSES::MUSIC`; hence the table
holds exactly 48 distinct values, and two entries with the same value have
the same name. -/
theorem C7_only_music_shared_across_table :
    table.length = 49 ∧ table.Nodup ∧
      banksMusic ∈ table ∧ bussesMusic ∈ table ∧ banksMusic ≠ bussesMusic ∧
      banksMusic.value = bussesMusic.value ∧
      (∀ e₁ ∈ table, ∀ e₂ ∈ table, e₁ ≠ e₂ → e₁.value = e₂.value →
        (e₁ = banksMusic ∧ e₂ = bussesMusic) ∨ (e₁ = bussesMusic ∧ e₂ = banksMusic)) ∧
      (table.map Entry.value).dedup.length = 48 ∧
      (∀ e₁ ∈ table, ∀ e₂ ∈ table, e₁.value = e₂.value → e₁.name = e₂.name) := by
  decide

/-- C8: no entry of the table has the value 0, the invalid id of the audio
runtime: every value is strictly positive. -/
theorem C8_no_value_is_invalid_id (e : Entry) (h : e ∈ table) :
    e.value ≠ 0 ∧ e.value ≠ AK_INVALID_UNIQUE_ID ∧ 0 < e.value := by
  revert e
  decide

theorem C8_no_value_is_invalid_id_witness :
    banksMusic ∈ table ∧
      (banksMusic.value ≠ 0 ∧ banksMusic.value ≠ AK_INVALID_UNIQUE_ID ∧ 0 < banksMusic.value) :=
  ⟨by decide, C8_no_value_is_invalid_id banksMusic (by decide)⟩

/-- C9 as stated fails: with X = "CAREXPLOSI", the event named X followed by
"ON" (`CAREXPLOSION`) is in EVENTS and no event named X followed by "OFF"
is. -/
theorem C9_counterexample_carexplosion :
    "CAREXPLOSI" ++ "ON" ∈ names .EVENTS ∧ "CAREXPLOSI" ++ "OFF" ∉ names .EVENTS := by
  decide

/-- C9 amended: for every string X other than "CAREXPLOSI", an event named X
followed by "ON" is in EVENTS if and only if an event named X followed by
"OFF" is; that is the case exactly for the six stems ENGINE, LEVELMUSIC,
MENUMUSIC, MIDROUND, PAUSE, TIRESCREECH; and an event named X followed by
"ON" and one named X followed by "OFF" have different values. -/
theorem C9_on_off_pairs (X : String) (hX : X ≠ "CAREXPLOSI") :
    (X ++ "ON" ∈ names .EVENTS ↔ X ++ "OFF" ∈ names .EVENTS) ∧
      (X ++ "OFF" ∈ names .EVENTS ↔ X ∈ pairStems) ∧
      ∀ e₁ ∈ inCategory .EVENTS, ∀ e₂ ∈ inCategory .EVENTS,
        e₁.name = X ++ "ON" → e₂.name = X ++ "OFF" → e₁.value ≠ e₂.value := by
  have hoff : X ++ "OFF" ∈ names .EVENTS ↔ X ∈ pairStems := by
    rw [append_mem_iff, off_stems]
  have hon : X ++ "ON" ∈ names .EVENTS ↔ X ∈ pairStems := by
    rw [append_mem_iff, on_stems, List.mem_cons]
    exact ⟨fun h => h.resolve_left hX, Or.inr⟩
  refine ⟨hon.trans hoff.symm, hoff, ?_⟩
  intro e₁ h₁ e₂ h₂ n₁ n₂
  obtain ⟨m₁, c₁⟩ := mem_inCategory.1 h₁
  obtain ⟨m₂, c₂⟩ := mem_inCategory.1 h₂
  refine values_ne_of_names_ne e₁ m₁ e₂ m₂ (c₁.trans c₂.symm) ?_
  rw [n₁, n₂]
  intro h
  have h2 := congrArg String.data h
  rw [String.data_append, String.data_append] at h2
  exact absurd (List.append_cancel_left h2) (by decide)

theorem C9_on_off_pairs_witness :
    "ENGINE" ≠ "CAREXPLOSI" ∧
      (("ENGINE" ++ "ON" ∈ names .EVENTS ↔ "ENGINE" ++ "OFF" ∈ names .EVENTS) ∧
        ("ENGINE" ++ "OFF" ∈ names .EVENTS ↔ "ENGINE" ∈ pairStems) ∧
        ∀ e₁ ∈ inCategory .EVENTS, ∀ e₂ ∈ inCategory .EVENTS,
          e₁.name = "ENGINE" ++ "ON" → e₂.name = "ENGINE" ++ "OFF" → e₁.value ≠ e₂.value) :=
  ⟨by decide, C9_on_off_pairs "ENGINE" (by decide)⟩

end AK
